import Mathlib

/-!
Shallow embedding of the `jvm_obfuscation_mappings` Rust crate, covering the
descriptor model (`src/descriptor/class_name.rs`, `src/descriptor/types.rs`),
the element-kind taxonomy and visitor flags (`src/lib.rs`, `src/visitor.rs`),
and the Tiny v2 writer (`src/format/tiny2.rs`).

Modelling conventions:
- Rust `String` / `&str` values are `List Char` (named `Str` below).
- The writer's sink `W : std::fmt::Write` is modelled as an append-only
  `Str` buffer that accepts every write (the standard `String` sink never
  fails), so the only remaining failure modes are the explicit
  `anyhow!` error in `visit_field` / `visit_method` (modelled with `Except`)
  and the unchecked slice indexing in `visit_dst_name` (a Rust panic,
  modelled with `Option`, `none` standing for the panic).
- Since the Rust methods mutate `self` in place and then return a result,
  every modelled operation returns the updated writer state alongside its
  result value, so the sink contents survive an error return.
-/

namespace JvmMappings

/-- Strings are modelled as lists of characters. -/
abbrev Str := List Char

/-- Rust `str::replace(pat, rep)` for a one-character pattern: every
occurrence of the pattern character is replaced by the replacement string. -/
def strReplace (pat : Char) (rep : Str) : Str → Str
  | [] => []
  | c :: cs => if c = pat then rep ++ strReplace pat rep cs else c :: strReplace pat rep cs

/-- `ClassName` from `src/descriptor/class_name.rs`: a JVM class name stored
as a slash-delimited internal name. -/
structure ClassName where
  internal_name : Str
  deriving DecidableEq

/-- `ClassName::from_internal_name`: stores the given internal name verbatim. -/
def ClassName.from_internal_name (internal_name : Str) : ClassName :=
  { internal_name := internal_name }

/-- `ClassName::from_binary_name`: replaces every `.` with `/` and stores
the result as the internal name. -/
def ClassName.from_binary_name (binary_name : Str) : ClassName :=
  { internal_name := strReplace '.' ['/'] binary_name }

/-- `ClassName::binary_name`: the internal name with every `/` replaced by `.`. -/
def ClassName.binary_name (c : ClassName) : Str :=
  strReplace '/' ['.'] c.internal_name

/-- `Type` from `src/descriptor/types.rs` (named `JType` here since `Type`
is reserved in Lean): a recursive JVM type. -/
inductive JType
  | Object (name : ClassName)
  | Array (element_type : JType)
  | Byte
  | Short
  | Int
  | Long
  | Float
  | Double
  | Boolean
  | Char
  | Void
  deriving DecidableEq

/-- `ClassName::to_type`: wraps the class name in `Type::Object`. -/
def ClassName.to_type (c : ClassName) : JType :=
  JType.Object c

/-- `Type::descriptor`: the JVM bytecode descriptor of a type. -/
def JType.descriptor : JType → Str
  | .Object name => 'L' :: (name.internal_name ++ [';'])
  | .Array element_type => '[' :: element_type.descriptor
  | .Byte => ("B").data
  | .Short => ("S").data
  | .Int => ("I").data
  | .Long => ("J").data
  | .Float => ("F").data
  | .Double => ("D").data
  | .Boolean => ("Z").data
  | .Char => ("C").data
  | .Void => ("V").data

/-- `Type::java_name`: the name the type would use in Java source. -/
def JType.java_name : JType → Str
  | .Object name => name.binary_name
  | .Array element_type => element_type.java_name ++ ("[]").data
  | .Byte => ("byte").data
  | .Short => ("short").data
  | .Int => ("int").data
  | .Long => ("long").data
  | .Float => ("float").data
  | .Double => ("double").data
  | .Boolean => ("boolean").data
  | .Char => ("char").data
  | .Void => ("void").data

/-- `Type::array`: wraps the type in one `Array` layer. -/
def JType.array (t : JType) : JType :=
  JType.Array t

/-- `Type::array_depth`: number of nested `Array` layers, 0 for non-arrays. -/
def JType.array_depth : JType → Nat
  | .Array element_type => 1 + element_type.array_depth
  | _ => 0

/-- `MappedElementKind` from `src/lib.rs`. -/
inductive MappedElementKind
  | Class
  | Field
  | Method
  | MethodArg
  | MethodVar
  deriving DecidableEq

/-- `MappedElementKind::level`: nesting level of the element kind. -/
def MappedElementKind.level : MappedElementKind → Nat
  | .Class => 0
  | .Field => 1
  | .Method => 1
  | .MethodArg => 2
  | .MethodVar => 2

/-- `MappingFlag` from `src/visitor.rs`. -/
inductive MappingFlag
  | NeedsMultiplePasses
  | NeedsHeaderMetadata
  | NeedsUniqueness
  | NeedsSrcFieldDesc
  | NeedsSrcMethodDesc
  | NeedsDstFieldDesc
  | NeedsDstMethodDesc
  deriving DecidableEq

/-- `Tiny2Writer` from `src/format/tiny2.rs`: the sink contents plus the
per-pass destination-name scratch buffer. -/
structure Tiny2Writer where
  write : Str
  dst_names : List (Option Str)
  deriving DecidableEq

/-- `Tiny2Writer::new` with an empty sink. -/
def Tiny2Writer.new : Tiny2Writer :=
  { write := [], dst_names := [] }

/-- One sink write (`write_str` / `write_char` / `write!`): appends to the sink. -/
def Tiny2Writer.emit (w : Tiny2Writer) (s : Str) : Tiny2Writer :=
  { w with write := w.write ++ s }

/-- `Tiny2Writer::flags`: the declared capability flags (the `HashSet` is
modelled as a list; only membership matters). -/
def Tiny2Writer.flags : List MappingFlag :=
  [.NeedsHeaderMetadata, .NeedsUniqueness, .NeedsSrcFieldDesc, .NeedsSrcMethodDesc]

/-- Decimal rendering of an `i32` via Rust's `Display` (`write!("{}", i)`). -/
def intStr (i : Int) : Str :=
  (toString i).data

/-- `Tiny2Writer::visit_namespaces`: sizes the scratch buffer and writes the
header line. -/
def Tiny2Writer.visit_namespaces (w : Tiny2Writer) (src_namespace : Str)
    (dst_namespaces : List Str) : Tiny2Writer :=
  let w := { w with dst_names := List.replicate dst_namespaces.length none }
  let w := w.emit (("tiny\tv2\t0\t").data ++ src_namespace)
  let w := dst_namespaces.foldl (fun acc dst_namespace => acc.emit ('\t' :: dst_namespace)) w
  w.emit ['\n']

/-- `Tiny2Writer::visit_class`: writes `c\t<src_name>` and returns `true`. -/
def Tiny2Writer.visit_class (w : Tiny2Writer) (src_name : Str) : Tiny2Writer × Bool :=
  (w.emit (("c\t").data ++ src_name), true)

/-- `Tiny2Writer::visit_field`: writes the `\tf\t` prefix, then either fails
with the `anyhow!` error when `src_desc` is absent or writes descriptor,
tab and source name. -/
def Tiny2Writer.visit_field (w : Tiny2Writer) (src_name : Str) (src_desc : Option Str) :
    Tiny2Writer × Except Str Bool :=
  let w := w.emit (("\tf\t").data)
  match src_desc with
  | none => (w, Except.error (("Tiny2Writer needs src desc!").data))
  | some d => (((w.emit d).emit ['\t']).emit src_name, Except.ok true)

/-- `Tiny2Writer::visit_method`: like `visit_field` with the `\tm\t` prefix. -/
def Tiny2Writer.visit_method (w : Tiny2Writer) (src_name : Str) (src_desc : Option Str) :
    Tiny2Writer × Except Str Bool :=
  let w := w.emit (("\tm\t").data)
  match src_desc with
  | none => (w, Except.error (("Tiny2Writer needs src desc!").data))
  | some d => (((w.emit d).emit ['\t']).emit src_name, Except.ok true)

/-- `Tiny2Writer::visit_method_arg`: writes `\t\tp\t<lv_index>\t<src_name?>`. -/
def Tiny2Writer.visit_method_arg (w : Tiny2Writer) (_arg_position lv_index : Int)
    (src_name : Option Str) : Tiny2Writer × Bool :=
  let w := w.emit (("\t\tp\t").data)
  let w := w.emit (intStr lv_index)
  let w := w.emit ['\t']
  let w := match src_name with
    | some n => w.emit n
    | none => w
  (w, true)

/-- `Tiny2Writer::visit_method_var`: writes
`\t\tv\t<lv_index>\t<start_op_idx>\t<max(lvt_row_index, -1)>\t<src_name?>`. -/
def Tiny2Writer.visit_method_var (w : Tiny2Writer) (lvt_row_index lv_index start_op_idx : Int)
    (src_name : Option Str) : Tiny2Writer × Bool :=
  let w := w.emit (("\t\tv\t").data)
  let w := w.emit (intStr lv_index)
  let w := w.emit ['\t']
  let w := w.emit (intStr start_op_idx)
  let w := w.emit ['\t']
  let w := w.emit (intStr (max lvt_row_index (-1)))
  let w := w.emit ['\t']
  let w := match src_name with
    | some n => w.emit n
    | none => w
  (w, true)

/-- `Tiny2Writer::visit_dst_name`: `self.dst_names[namespace] = Some(name)`.
The unchecked slice indexing panics when the index is out of bounds;
the panic is modelled as `none`. -/
def Tiny2Writer.visit_dst_name (w : Tiny2Writer) (_target_kind : MappedElementKind)
    (ns : Nat) (name : Str) : Option Tiny2Writer :=
  if ns < w.dst_names.length then
    some { w with dst_names := w.dst_names.set ns (some name) }
  else
    none

/-- Loop body of `Tiny2Writer::visit_element_content`: a tab, then the
destination name when present. -/
def flushStep (acc : Tiny2Writer) (dst_name : Option Str) : Tiny2Writer :=
  match dst_name with
  | some d => (acc.emit ['\t']).emit d
  | none => acc.emit ['\t']

/-- `Tiny2Writer::visit_element_content`: flushes the scratch buffer (one
tab-prefixed field per slot, in order) and refills it with `None`.
Faithful to the source, no newline is written here. -/
def Tiny2Writer.visit_element_content (w : Tiny2Writer) (_target_kind : MappedElementKind) :
    Tiny2Writer × Bool :=
  let w1 := w.dst_names.foldl flushStep w
  ({ w1 with dst_names := w1.dst_names.map (fun _ => none) }, true)

/-- `Tiny2Writer::visit_comment`: `level` tabs, then `\tc\t<comment>\n`. -/
def Tiny2Writer.visit_comment (w : Tiny2Writer) (target_kind : MappedElementKind)
    (comment : Str) : Tiny2Writer :=
  let w := w.emit (List.replicate target_kind.level '\t')
  let w := w.emit (("\tc\t").data)
  let w := w.emit comment
  w.emit ['\n']

/-! Helper lemmas about `strReplace`. -/

/-- Replacing a single character by a single character is a pointwise map. -/
theorem strReplace_single (pat r : Char) (s : Str) :
    strReplace pat [r] s = s.map (fun c => if c = pat then r else c) := by
  induction s with
  | nil => rfl
  | cons c cs ih => by_cases h : c = pat <;> simp [strReplace, h, ih]

/-- Dots-to-slashes then slashes-to-dots is the identity on strings without `/`. -/
theorem strReplace_round_trip (s : Str) (h : '/' ∉ s) :
    strReplace '/' ['.'] (strReplace '.' ['/'] s) = s := by
  induction s with
  | nil => rfl
  | cons c cs ih =>
    have h1 : c ≠ '/' := fun hc => h (hc ▸ List.mem_cons_self c cs)
    have h2 : '/' ∉ cs := fun hm => h (List.mem_cons_of_mem c hm)
    by_cases hc : c = '.'
    · subst hc
      simp [strReplace, ih h2]
    · simp [strReplace, hc, h1, ih h2]

/-- Claim C4: `from_binary_name(n).internal_name()` equals `n` with every `.`
replaced by `/` and every other character unchanged; `from_internal_name(s).binary_name()`
equals `s` with every `/` replaced by `.`; consequently `from_binary_name(n).binary_name() = n`
for every `n` containing no `/`, and `from_internal_name(s).internal_name() = s` for every `s`. -/
theorem c4_class_name_conversions :
    (∀ n : Str, (ClassName.from_binary_name n).internal_name
        = n.map (fun c => if c = '.' then '/' else c))
    ∧ (∀ s : Str, (ClassName.from_internal_name s).binary_name
        = s.map (fun c => if c = '/' then '.' else c))
    ∧ (∀ n : Str, '/' ∉ n → (ClassName.from_binary_name n).binary_name = n)
    ∧ (∀ s : Str, (ClassName.from_internal_name s).internal_name = s) := by
  refine ⟨fun n => ?_, fun s => ?_, fun n h => ?_, fun s => rfl⟩
  · exact strReplace_single '.' '/' n
  · exact strReplace_single '/' '.' s
  · exact strReplace_round_trip n h

/-- Witness for C4: the round trip evaluated at `"java.lang.String"`. -/
theorem c4_witness :
    (ClassName.from_binary_name (("java.lang.String").data)).binary_name
      = ("java.lang.String").data :=
  c4_class_name_conversions.2.2.1 (("java.lang.String").data) (by decide)

/-- Iterated `Type::array`: applies `array()` `k` times to the given type. -/
def arrayN : Nat → JType → JType
  | 0, t => t
  | k + 1, t => (arrayN k t).array

/-- Claim C5 counterexample: for `t = Type::Int.array()` (already an array) and
`k = 0` applications of `array()`, the resulting `array_depth()` is 1, not `k = 0`,
so the claim quantified over every `Type t` is false. -/
theorem c5_counterexample : (arrayN 0 (JType.Int.array)).array_depth ≠ 0 := by
  decide

/-- Claim C5 (amended): applying `array()` `k` times to `t` yields a type whose
`array_depth()` is `t.array_depth() + k` (hence exactly `k` whenever `t` is not
itself an array), and whose `java_name()` is `t.java_name()` with exactly `k`
`[]` suffixes appended. -/
theorem c5_array_iteration (t : JType) (k : Nat) :
    (arrayN k t).array_depth = t.array_depth + k
    ∧ (arrayN k t).java_name = t.java_name ++ (List.replicate k (("[]").data)).flatten := by
  induction k with
  | zero => simp [arrayN]
  | succ k ih =>
    refine ⟨?_, ?_⟩
    · simp only [arrayN, JType.array, JType.array_depth, ih.1]
      omega
    · simp [arrayN, JType.array, JType.java_name, ih.2, List.replicate_succ',
        List.append_assoc]

/-- Claim C6: `descriptor()` renders the JVM encoding: `L<internal-name>;` for
objects, a leading `[` per array layer, the single letters for primitives and
void, and in particular `Ljava/lang/String;` for `java.lang.String` and `Z`
for `boolean`. -/
theorem c6_descriptor_rendering :
    (∀ c : ClassName, (JType.Object c).descriptor = 'L' :: (c.internal_name ++ [';']))
    ∧ (∀ t : JType, (t.array).descriptor = '[' :: t.descriptor)
    ∧ JType.Byte.descriptor = ("B").data
    ∧ JType.Short.descriptor = ("S").data
    ∧ JType.Int.descriptor = ("I").data
    ∧ JType.Long.descriptor = ("J").data
    ∧ JType.Float.descriptor = ("F").data
    ∧ JType.Double.descriptor = ("D").data
    ∧ JType.Boolean.descriptor = ("Z").data
    ∧ JType.Char.descriptor = ("C").data
    ∧ JType.Void.descriptor = ("V").data
    ∧ (JType.Object (ClassName.from_binary_name (("java.lang.String").data))).descriptor
        = ("Ljava/lang/String;").data := by
  refine ⟨fun c => rfl, fun t => rfl, rfl, rfl, rfl, rfl, rfl, rfl, rfl, rfl, rfl, ?_⟩
  decide

/-- Claim C2: visiting a field or method without a source descriptor returns
the error (a terminal failure), never `Ok` with a placeholder; with a
descriptor present (and the sink accepting all writes) the call returns
`Ok(true)`. The writer indeed declares `NeedsSrcFieldDesc` and
`NeedsSrcMethodDesc`. -/
theorem c2_missing_src_desc_fails :
    (∀ (w : Tiny2Writer) (src_name : Str),
        (w.visit_field src_name none).2 = Except.error (("Tiny2Writer needs src desc!").data)
        ∧ (w.visit_method src_name none).2 = Except.error (("Tiny2Writer needs src desc!").data))
    ∧ (∀ (w : Tiny2Writer) (src_name src_desc : Str),
        (w.visit_field src_name (some src_desc)).2 = Except.ok true
        ∧ (w.visit_method src_name (some src_desc)).2 = Except.ok true)
    ∧ MappingFlag.NeedsSrcFieldDesc ∈ Tiny2Writer.flags
    ∧ MappingFlag.NeedsSrcMethodDesc ∈ Tiny2Writer.flags := by
  exact ⟨fun w s => ⟨rfl, rfl⟩, fun w s d => ⟨rfl, rfl⟩, by decide, by decide⟩

/-- Claim C7: `visit_method_var` emits two tabs, `v`, a tab, the decimal
`lv_index`, a tab, the decimal `start_op_idx`, a tab, the decimal
`max(lvt_row_index, -1)`, a tab, then the source name (empty if `None`);
the LVT row index column is clamped to a minimum of `-1` and a value
below `-1` is never emitted. -/
theorem c7_method_var_record (w : Tiny2Writer) (lvt_row_index lv_index start_op_idx : Int)
    (src_name : Option Str) :
    (w.visit_method_var lvt_row_index lv_index start_op_idx src_name).1.write
      = w.write ++ ("\t\tv\t").data ++ intStr lv_index ++ ['\t'] ++ intStr start_op_idx
        ++ ['\t'] ++ intStr (max lvt_row_index (-1)) ++ ['\t']
        ++ src_name.getD []
    ∧ (-1 : Int) ≤ max lvt_row_index (-1)
    ∧ (lvt_row_index < -1 → max lvt_row_index (-1) = -1)
    ∧ (w.visit_method_var lvt_row_index lv_index start_op_idx src_name).2 = true := by
  refine ⟨?_, le_max_right _ _, fun h => max_eq_right (le_of_lt h), ?_⟩
  · cases src_name <;>
      simp [Tiny2Writer.visit_method_var, Tiny2Writer.emit, Option.getD, List.append_assoc]
  · cases src_name <;> rfl

/-- Witness for C7: a variable with LVT row index `-7` (below `-1`) is clamped
to `-1` in the emitted record. -/
theorem c7_witness :
    (Tiny2Writer.new.visit_method_var (-7) 2 3 (some (("x").data))).1.write
      = [] ++ ("\t\tv\t").data ++ intStr 2 ++ ['\t'] ++ intStr 3 ++ ['\t']
        ++ intStr (max (-7) (-1)) ++ ['\t'] ++ ("x").data
    ∧ max (-7 : Int) (-1) = -1 :=
  ⟨(c7_method_var_record Tiny2Writer.new (-7) 2 3 (some (("x").data))).1,
    (c7_method_var_record Tiny2Writer.new (-7) 2 3 (some (("x").data))).2.2.1 (by decide)⟩

/-- Claim C9: `visit_dst_name` is safe exactly when the namespace index is
below the scratch-buffer size fixed by the last `visit_namespaces` (zero
slots before any such call): in bounds it stores the name and returns `Ok`
without touching the sink; at or beyond the bound the unchecked indexing
panics (modelled as `none`) instead of returning an error. -/
theorem c9_dst_name_bounds (w : Tiny2Writer) (k : MappedElementKind) (ns : Nat) (name : Str) :
    (ns < w.dst_names.length →
      w.visit_dst_name k ns name
        = some { w with dst_names := w.dst_names.set ns (some name) }
      ∧ ∀ w', w.visit_dst_name k ns name = some w' → w'.write = w.write)
    ∧ (w.dst_names.length ≤ ns → w.visit_dst_name k ns name = none) := by
  constructor
  · intro h
    refine ⟨by simp [Tiny2Writer.visit_dst_name, h], fun w' hw => ?_⟩
    simp [Tiny2Writer.visit_dst_name, h] at hw
    rw [← hw]
  · intro h
    simp [Tiny2Writer.visit_dst_name, Nat.not_lt.mpr h]

/-- Witness for C9: with one destination namespace, index 0 stores the name
and leaves the sink alone; index 1 panics. -/
theorem c9_witness :
    ((⟨[], [none]⟩ : Tiny2Writer).visit_dst_name MappedElementKind.Class 0 (("b").data)
        = some { (⟨[], [none]⟩ : Tiny2Writer) with
            dst_names := [none].set 0 (some (("b").data)) })
    ∧ (⟨[], [none]⟩ : Tiny2Writer).visit_dst_name MappedElementKind.Class 1 (("b").data)
        = none :=
  ⟨((c9_dst_name_bounds ⟨[], [none]⟩ MappedElementKind.Class 0 (("b").data)).1 (by decide)).1,
    (c9_dst_name_bounds ⟨[], [none]⟩ MappedElementKind.Class 1 (("b").data)).2 (by decide)⟩

/-- Claim C10: when `visit_field` or `visit_method` fails because the source
descriptor is absent, the failure is not atomic: the record prefix (`\tf\t`
or `\tm\t`) has already been appended to the sink before the error is
returned, so the sink is left changed by the failing call. -/
theorem c10_failing_write_not_atomic (w : Tiny2Writer) (src_name : Str) :
    (w.visit_field src_name none).1.write = w.write ++ ("\tf\t").data
    ∧ (w.visit_method src_name none).1.write = w.write ++ ("\tm\t").data
    ∧ (w.visit_field src_name none).2 = Except.error (("Tiny2Writer needs src desc!").data)
    ∧ (w.visit_method src_name none).2 = Except.error (("Tiny2Writer needs src desc!").data)
    ∧ (w.visit_field src_name none).1.write ≠ w.write
    ∧ (w.visit_method src_name none).1.write ≠ w.write := by
  refine ⟨rfl, rfl, rfl, rfl, fun h => ?_, fun h => ?_⟩
  · have := congrArg List.length h
    simp [Tiny2Writer.visit_field, Tiny2Writer.emit] at this
  · have := congrArg List.length h
    simp [Tiny2Writer.visit_method, Tiny2Writer.emit] at this

/-- Witness for C10: a failing field visit on a fresh writer leaves the
`\tf\t` prefix in the sink. -/
theorem c10_witness :
    (Tiny2Writer.new.visit_field (("f").data) none).1.write = [] ++ ("\tf\t").data :=
  (c10_failing_write_not_atomic Tiny2Writer.new (("f").data)).1

/-! Characterizations of the checkpoint flush and the header write. -/

/-- Rendering of one destination-name slot at the checkpoint flush: a tab,
then the name when present (nothing when absent). -/
def dstField (dst_name : Option Str) : Str :=
  '\t' :: dst_name.getD []

/-- The flush loop body appends exactly one rendered field to the sink. -/
theorem flushStep_eq (acc : Tiny2Writer) (o : Option Str) :
    flushStep acc o = acc.emit (dstField o) := by
  cases o <;> simp [flushStep, dstField, Tiny2Writer.emit, List.append_assoc]

/-- The flush loop appends the concatenation of the rendered fields, in order. -/
theorem flushFold_write (l : List (Option Str)) (w : Tiny2Writer) :
    (l.foldl flushStep w).write = w.write ++ (l.map dstField).flatten := by
  induction l generalizing w with
  | nil => simp
  | cons o t ih => simp [flushStep_eq, Tiny2Writer.emit, ih, List.append_assoc]

/-- The flush loop does not modify the scratch buffer. -/
theorem flushFold_dst_names (l : List (Option Str)) (w : Tiny2Writer) :
    (l.foldl flushStep w).dst_names = w.dst_names := by
  induction l generalizing w with
  | nil => rfl
  | cons o t ih => simp [flushStep_eq, Tiny2Writer.emit, ih]

/-- Sink contents after `visit_element_content`: the old contents followed by
one rendered field per scratch slot, in order. -/
theorem visit_element_content_write (w : Tiny2Writer) (k : MappedElementKind) :
    (w.visit_element_content k).1.write = w.write ++ (w.dst_names.map dstField).flatten := by
  simp [Tiny2Writer.visit_element_content, flushFold_write]

/-- Constant-`none` map is a `replicate` (the model of `Vec::fill(None)`). -/
theorem map_none_eq_replicate (l : List (Option Str)) :
    l.map (fun _ => (none : Option Str)) = List.replicate l.length none := by
  induction l with
  | nil => rfl
  | cons o t ih => simp [ih, List.replicate_succ]

/-- Scratch buffer after `visit_element_content`: every slot is `none` again,
and the size is unchanged. -/
theorem visit_element_content_dst_names (w : Tiny2Writer) (k : MappedElementKind) :
    (w.visit_element_content k).1.dst_names = List.replicate w.dst_names.length none := by
  simp [Tiny2Writer.visit_element_content, flushFold_dst_names, map_none_eq_replicate]

/-- The header loop over destination namespaces does not touch the scratch buffer. -/
theorem nsFold_dst_names (l : List Str) (w : Tiny2Writer) :
    (l.foldl (fun acc dst_namespace => acc.emit ('\t' :: dst_namespace)) w).dst_names
      = w.dst_names := by
  induction l generalizing w with
  | nil => rfl
  | cons d t ih =>
    rw [List.foldl_cons, ih]
    rfl

/-- `visit_namespaces` sizes the scratch buffer to the destination-namespace
count, with every slot empty. -/
theorem visit_namespaces_dst_names (w : Tiny2Writer) (src : Str) (dsts : List Str) :
    (w.visit_namespaces src dsts).dst_names = List.replicate dsts.length none :=
  nsFold_dst_names dsts _

/-- Claim C3: with the scratch buffer sized to `n` destination namespaces, the
checkpoint flush emits exactly `n` tab-prefixed fields, one per index in
order; a never-visited index is a bare tab (empty field), never omitted; and
the buffer size — hence the column count — is fixed by `visit_namespaces`
and preserved by `visit_dst_name` and the flush itself. -/
theorem c3_flush_columns (w : Tiny2Writer) (k : MappedElementKind) (n : Nat)
    (h : w.dst_names.length = n) :
    (w.visit_element_content k).1.write = w.write ++ (w.dst_names.map dstField).flatten
    ∧ (w.dst_names.map dstField).length = n
    ∧ (∀ dst_name ∈ w.dst_names, (dstField dst_name).head? = some '\t')
    ∧ (∀ dst_name ∈ w.dst_names, dst_name = none → dstField dst_name = ['\t'])
    ∧ (w.visit_element_content k).1.dst_names.length = n
    ∧ (∀ (w0 : Tiny2Writer) (src0 : Str) (dsts0 : List Str),
        (w0.visit_namespaces src0 dsts0).dst_names.length = dsts0.length)
    ∧ (∀ (w0 : Tiny2Writer) (k0 : MappedElementKind) (ns0 : Nat) (nm0 : Str)
        (w1 : Tiny2Writer),
        w0.visit_dst_name k0 ns0 nm0 = some w1
          → w1.dst_names.length = w0.dst_names.length) := by
  refine ⟨visit_element_content_write w k, by simp [h], fun o _ => rfl,
    fun o _ ho => by simp [ho, dstField],
    by simp [visit_element_content_dst_names, h],
    fun w0 src0 dsts0 => by simp [visit_namespaces_dst_names],
    fun w0 k0 ns0 nm0 w1 hw => ?_⟩
  unfold Tiny2Writer.visit_dst_name at hw
  split at hw
  · cases hw
    simp
  · simp at hw

/-- Witness for C3: flushing a buffer holding `some "b"` and an unvisited slot
emits the field `\tb` followed by a bare tab. -/
theorem c3_witness :
    ((⟨[], [some (("b").data), none]⟩ : Tiny2Writer).visit_element_content
        MappedElementKind.Class).1.write
      = [] ++ ([some (("b").data), none].map dstField).flatten :=
  (c3_flush_columns ⟨[], [some (("b").data), none]⟩ MappedElementKind.Class 2 rfl).1

/-- Driver for the claim C1 visitation sequence against a fresh writer:
namespaces `named -> [intermediary]`, class `a` renamed `b`, field `f : I`
renamed `g`, trailing comment `note`; yields the final sink contents
(`none` would indicate a panic or a returned error). -/
def c1_run : Option Str :=
  let w := Tiny2Writer.new.visit_namespaces (("named").data) [("intermediary").data]
  let w := (w.visit_class (("a").data)).1
  match w.visit_dst_name MappedElementKind.Class 0 (("b").data) with
  | none => none
  | some w =>
    let w := (w.visit_element_content MappedElementKind.Class).1
    match w.visit_field (("f").data) (some (("I").data)) with
    | (_, Except.error _) => none
    | (w, Except.ok _) =>
      match w.visit_dst_name MappedElementKind.Field 0 (("g").data) with
      | none => none
      | some w =>
        let w := (w.visit_element_content MappedElementKind.Field).1
        some ((w.visit_comment MappedElementKind.Field (("note").data)).write)

/-- Claim C1 evaluated on the code: the sequence succeeds, but the sink holds
the header line followed by `c\ta\tb\tf\tI\tf\tg\t\tc\tnote\n` — the
`visit_element_content` checkpoint writes no newline, so the class record,
the field record and the comment's leading indentation all run together on
one line instead of the claimed three newline-terminated records. -/
theorem c1_emitted_bytes :
    c1_run = some (("tiny\tv2\t0\tnamed\tintermediary\nc\ta\tb\tf\tI\tf\tg\t\tc\tnote\n").data)
    ∧ c1_run
      ≠ some (("tiny\tv2\t0\tnamed\tintermediary\nc\ta\tb\n\tf\tI\tf\tg\n\t\tc\tnote\n").data) := by
  constructor
  · decide
  · decide

/-! Protocol-level traces for the scratch-buffer invariant (claim C8). -/

/-- One begin-element callback of the visitor protocol, with its payload. -/
inductive BeginEvent
  | bclass (src_name : Str)
  | bfield (src_name : Str) (src_desc : Option Str)
  | bmethod (src_name : Str) (src_desc : Option Str)
  | barg (arg_position lv_index : Int) (src_name : Option Str)
  | bvar (lvt_row_index lv_index start_op_idx : Int) (src_name : Option Str)

/-- The element kind announced by a begin callback. -/
def BeginEvent.kind : BeginEvent → MappedElementKind
  | .bclass _ => .Class
  | .bfield _ _ => .Field
  | .bmethod _ _ => .Method
  | .barg _ _ _ => .MethodArg
  | .bvar _ _ _ _ => .MethodVar

/-- Runs one begin callback on the writer; `none` models the error return of
`visit_field` / `visit_method` without a source descriptor. -/
def runBegin (w : Tiny2Writer) : BeginEvent → Option Tiny2Writer
  | .bclass n => some (w.visit_class n).1
  | .bfield n d =>
    match w.visit_field n d with
    | (w1, Except.ok _) => some w1
    | (_, Except.error _) => none
  | .bmethod n d =>
    match w.visit_method n d with
    | (w1, Except.ok _) => some w1
    | (_, Except.error _) => none
  | .barg a l n => some (w.visit_method_arg a l n).1
  | .bvar a l s n => some (w.visit_method_var a l s n).1

/-- Runs the destination-name callbacks of one element in order; `none`
models the out-of-bounds panic. -/
def runDsts (k : MappedElementKind) (w : Tiny2Writer) : List (Nat × Str) → Option Tiny2Writer
  | [] => some w
  | (ns, name) :: rest =>
    match w.visit_dst_name k ns name with
    | some w1 => runDsts k w1 rest
    | none => none

/-- One complete element visit as the protocol prescribes: the begin callback,
its destination names, the element-content checkpoint, then its comments. -/
structure ElementVisit where
  begin_event : BeginEvent
  dst_visits : List (Nat × Str)
  comments : List Str

/-- Runs one complete element visit on the writer. -/
def runElement (w : Tiny2Writer) (e : ElementVisit) : Option Tiny2Writer :=
  match runBegin w e.begin_event with
  | none => none
  | some w1 =>
    match runDsts e.begin_event.kind w1 e.dst_visits with
    | none => none
    | some w2 =>
      let w3 := (w2.visit_element_content e.begin_event.kind).1
      some (e.comments.foldl (fun acc c => acc.visit_comment e.begin_event.kind c) w3)

/-- Runs a sequence of complete element visits. -/
def runElements (w : Tiny2Writer) : List ElementVisit → Option Tiny2Writer
  | [] => some w
  | e :: rest =>
    match runElement w e with
    | some w1 => runElements w1 rest
    | none => none

/-- A full writer pass: `visit_namespaces` on a fresh writer followed by a
sequence of complete element visits. -/
def runPass (src_namespace : Str) (dst_namespaces : List Str)
    (elements : List ElementVisit) : Option Tiny2Writer :=
  runElements (Tiny2Writer.new.visit_namespaces src_namespace dst_namespaces) elements

/-- `visit_class` leaves the scratch buffer untouched. -/
theorem visit_class_dst_names (w : Tiny2Writer) (n : Str) :
    (w.visit_class n).1.dst_names = w.dst_names := rfl

/-- `visit_field` leaves the scratch buffer untouched. -/
theorem visit_field_dst_names (w : Tiny2Writer) (n : Str) (d : Option Str) :
    (w.visit_field n d).1.dst_names = w.dst_names := by
  cases d <;> rfl

/-- `visit_method` leaves the scratch buffer untouched. -/
theorem visit_method_dst_names (w : Tiny2Writer) (n : Str) (d : Option Str) :
    (w.visit_method n d).1.dst_names = w.dst_names := by
  cases d <;> rfl

/-- `visit_method_arg` leaves the scratch buffer untouched. -/
theorem visit_method_arg_dst_names (w : Tiny2Writer) (a l : Int) (n : Option Str) :
    (w.visit_method_arg a l n).1.dst_names = w.dst_names := by
  cases n <;> rfl

/-- `visit_method_var` leaves the scratch buffer untouched. -/
theorem visit_method_var_dst_names (w : Tiny2Writer) (a l s : Int) (n : Option Str) :
    (w.visit_method_var a l s n).1.dst_names = w.dst_names := by
  cases n <;> rfl

/-- `visit_comment` leaves the scratch buffer untouched. -/
theorem visit_comment_dst_names (w : Tiny2Writer) (k : MappedElementKind) (c : Str) :
    (w.visit_comment k c).dst_names = w.dst_names := rfl

/-- A successful begin callback leaves the scratch buffer untouched. -/
theorem runBegin_dst_names (w : Tiny2Writer) (e : BeginEvent) (w1 : Tiny2Writer)
    (h : runBegin w e = some w1) : w1.dst_names = w.dst_names := by
  cases e with
  | bclass n =>
    injection h with h
    subst h
    rfl
  | bfield n d =>
    rcases hf : w.visit_field n d with ⟨w2, r⟩
    cases r with
    | error err =>
      simp only [runBegin, hf] at h
      exact Option.noConfusion h
    | ok b =>
      simp only [runBegin, hf, Option.some.injEq] at h
      have h2 := visit_field_dst_names w n d
      rw [hf] at h2
      rw [← h]
      exact h2
  | bmethod n d =>
    rcases hf : w.visit_method n d with ⟨w2, r⟩
    cases r with
    | error err =>
      simp only [runBegin, hf] at h
      exact Option.noConfusion h
    | ok b =>
      simp only [runBegin, hf, Option.some.injEq] at h
      have h2 := visit_method_dst_names w n d
      rw [hf] at h2
      rw [← h]
      exact h2
  | barg a l n =>
    injection h with h
    subst h
    exact visit_method_arg_dst_names w a l n
  | bvar a l s n =>
    injection h with h
    subst h
    exact visit_method_var_dst_names w a l s n

/-- A successful run of destination-name callbacks preserves the
scratch-buffer size. -/
theorem runDsts_length (k : MappedElementKind) (ds : List (Nat × Str)) (w w1 : Tiny2Writer)
    (h : runDsts k w ds = some w1) : w1.dst_names.length = w.dst_names.length := by
  induction ds generalizing w with
  | nil =>
    injection h with h
    subst h
    rfl
  | cons p rest ih =>
    obtain ⟨ns, name⟩ := p
    rcases hd : w.visit_dst_name k ns name with _ | w2
    · simp only [runDsts, hd] at h
      exact Option.noConfusion h
    · simp only [runDsts, hd] at h
      have h2 := ih w2 h
      unfold Tiny2Writer.visit_dst_name at hd
      split at hd
      · injection hd with hd
        rw [← hd] at h2
        simpa [List.length_set] using h2
      · exact Option.noConfusion hd

/-- The comment loop leaves the scratch buffer untouched. -/
theorem commentsFold_dst_names (cs : List Str) (k : MappedElementKind) (w : Tiny2Writer) :
    (cs.foldl (fun acc c => acc.visit_comment k c) w).dst_names = w.dst_names := by
  induction cs generalizing w with
  | nil => rfl
  | cons c rest ih =>
    rw [List.foldl_cons, ih]
    rfl

/-- After one complete element visit the scratch buffer is all-`none` again,
with its size unchanged. -/
theorem runElement_dst_names (w : Tiny2Writer) (e : ElementVisit) (w1 : Tiny2Writer)
    (h : runElement w e = some w1) :
    w1.dst_names = List.replicate w.dst_names.length none := by
  rcases hb : runBegin w e.begin_event with _ | w2
  · simp only [runElement, hb] at h
    exact Option.noConfusion h
  · rcases hd : runDsts e.begin_event.kind w2 e.dst_visits with _ | w3
    · simp only [runElement, hb, hd] at h
      exact Option.noConfusion h
    · simp only [runElement, hb, hd, Option.some.injEq] at h
      rw [← h, commentsFold_dst_names, visit_element_content_dst_names,
        runDsts_length _ _ _ _ hd, runBegin_dst_names _ _ _ hb]

/-- The all-`none` scratch-buffer state is an invariant of complete element
visits. -/
theorem runElements_dst_names (es : List ElementVisit) (n : Nat) (w w1 : Tiny2Writer)
    (hw : w.dst_names = List.replicate n none)
    (h : runElements w es = some w1) :
    w1.dst_names = List.replicate n none := by
  induction es generalizing w with
  | nil =>
    injection h with h
    subst h
    exact hw
  | cons e rest ih =>
    rcases he : runElement w e with _ | w2
    · simp only [runElements, he] at h
      exact Option.noConfusion h
    · simp only [runElements, he] at h
      refine ih w2 ?_ h
      have h2 := runElement_dst_names w e w2 he
      rw [hw] at h2
      simpa using h2

/-- Claim C8: the scratch buffer is sized (all slots empty) exactly once per
pass at `visit_namespaces`; immediately after every checkpoint flush every
slot is `none` again; and at every point of a pass where a new element
begins (after the header or after any number of completed element visits)
the buffer is all-`none` of that fixed size, so no destination name visited
for one element can leak into a later element's record. -/
theorem c8_scratch_buffer_reset (src_namespace : Str) (dst_namespaces : List Str)
    (elements : List ElementVisit) (w1 : Tiny2Writer)
    (h : runPass src_namespace dst_namespaces elements = some w1) :
    w1.dst_names = List.replicate dst_namespaces.length none
    ∧ (∀ (w0 : Tiny2Writer) (src0 : Str) (dsts0 : List Str),
        (w0.visit_namespaces src0 dsts0).dst_names = List.replicate dsts0.length none)
    ∧ (∀ (w0 : Tiny2Writer) (k0 : MappedElementKind),
        (w0.visit_element_content k0).1.dst_names
          = List.replicate w0.dst_names.length none) :=
  ⟨runElements_dst_names elements dst_namespaces.length _ w1
      (visit_namespaces_dst_names _ _ _) h,
    fun w0 src0 dsts0 => visit_namespaces_dst_names w0 src0 dsts0,
    fun w0 k0 => visit_element_content_dst_names w0 k0⟩

/-- Witness for C8: a one-class pass (class `a` renamed `b`) leaves the scratch
buffer with its single slot empty. -/
theorem c8_witness :
    (⟨(("tiny\tv2\t0\tnamed\tintermediary\nc\ta\tb").data), [none]⟩ : Tiny2Writer).dst_names
      = List.replicate ([("intermediary").data] : List Str).length none :=
  (c8_scratch_buffer_reset (("named").data) [("intermediary").data]
    [⟨BeginEvent.bclass (("a").data), [(0, ("b").data)], []⟩] _ (by decide)).1

end JvmMappings
